import Mathlib

/-!
Verification development for `scripts/train_risk_model.py`.

The script is a linear procedure: resolve an input path (first CLI argument
or the default `risk_training_data.csv`), check the file exists, parse it as
a table, check the six feature columns and the label column are present,
split 80/20 stratified on the label with `random_state=42`, fit a
100-tree `RandomForestClassifier` with `random_state=42`, print test
accuracy and feature importances, and finally try to `import joblib` and
dump the model, swallowing `ImportError` only.

The embedding below models:
  * the script's own control flow, messages, exit codes and the
    try/except around persistence directly from the source;
  * Python `pathlib` string normalization (the script prints
    `f"File not found: {csv_path}"` where `csv_path = Path(arg)`, and
    `str(Path(arg))` normalizes the argument);
  * the external-library calls (`train_test_split`,
    `RandomForestClassifier`, `pd.read_csv`, `joblib.dump`), which are not
    part of this repository, as deterministic functions per the spec:
    a seed-determined stratified 80/20 split, an opaque deterministic fit
    whose feature importances are normalized to sum to 1, and a dump that
    either succeeds or raises.  Rational numbers stand in for floats.

Uncaught Python exceptions terminate the interpreter with exit status 1;
`sys.exit(1)` gives status 1; falling off `main` gives status 0.  The
embedding keeps the two kinds of status-1 termination distinguishable.
-/

namespace TrainRiskModel

/-- The six feature column names, in the order the script declares them
(`FEATURE_COLUMNS` in the source). -/
def FEATURE_COLUMNS : List String :=
  ["totalCount", "failureCount", "failureRate", "countLast1Min", "avgAmount", "maxAmount"]

/-- `TARGET_COLUMN = "label"` in the source. -/
def TARGET_COLUMN : String := "label"

/-- The validation loop iterates `FEATURE_COLUMNS + [TARGET_COLUMN]` in order. -/
def requiredColumns : List String := FEATURE_COLUMNS ++ [TARGET_COLUMN]

/-- A parsed CSV table: header plus rows of numeric cells, each row aligned
with the header (what `pd.read_csv` yields on the files this script reads). -/
structure Table where
  columns : List String
  rows : List (List ℚ)
deriving DecidableEq

/-- Does `n` occur at the start of `h`? -/
def listPre : List Char → List Char → Bool
  | [], _ => true
  | _ :: _, [] => false
  | a :: n, b :: h => a == b && listPre n h

/-- Does `n` occur contiguously anywhere in `h`? -/
def listSub (n : List Char) : List Char → Bool
  | [] => listPre n []
  | b :: h => listPre n (b :: h) || listSub n h

/-- Substring test on strings (`needle in haystack` in Python). -/
def strContains (hay needle : String) : Bool :=
  listSub needle.data hay.data

/-- Split a character list at `/`, keeping empty pieces (the character
level of Python's `str.split("/")`). -/
def splitSlash : List Char → List (List Char)
  | [] => [[]]
  | c :: rest =>
      let r := splitSlash rest
      if c = '/' then [] :: r
      else
        match r with
        | [] => [[c]]
        | s :: ss => (c :: s) :: ss

/-- Python `pathlib` drops empty and `"."` path segments. -/
def pathSegs (s : String) : List String :=
  ((splitSlash s.data).map String.mk).filter (fun p => p != "" && p != ".")

/-- String rendering of `Path(s)` — `pathlib` normalization: duplicate and
trailing slashes and `"."` segments disappear; a root of exactly two leading
slashes is kept (POSIX); the empty path renders as `"."`. -/
def pathStr (s : String) : String :=
  let root :=
    if listPre ['/', '/'] s.data && !(listPre ['/', '/', '/'] s.data) then "//"
    else if listPre ['/'] s.data then "/"
    else ""
  let full := root ++ String.intercalate "/" (pathSegs s)
  if full = "" then "." else full

/-- `csv_path = Path(sys.argv[1])` when an argument is given, else
`Path("risk_training_data.csv")`; the result is kept in its rendered
(normalized) string form, which is how it is printed and how the file
system is addressed. -/
def resolvePath (argv : List String) : String :=
  match argv with
  | _ :: a :: _ => pathStr a
  | _ => pathStr "risk_training_data.csv"

/-- First required column absent from the header: the validation loop
prints a diagnostic and exits at the first such column. -/
def firstMissingOf (t : Table) : Option String :=
  requiredColumns.find? (fun c => !(t.columns.contains c))

/-- Value of column `name` in a row (`pandas` label-based selection;
first occurrence of the name in the header). -/
def cellOf (cols : List String) (row : List ℚ) (name : String) : ℚ :=
  match cols, row with
  | [], _ => 0
  | _, [] => 0
  | c :: cs, v :: vs => if c = name then v else cellOf cs vs name

/-- `X = df[FEATURE_COLUMNS]` row: the six feature cells selected by name,
in the fixed `FEATURE_COLUMNS` order. -/
def featuresOf (cols : List String) (row : List ℚ) : List ℚ :=
  FEATURE_COLUMNS.map (cellOf cols row)

/-- One training example: features paired with the `label` cell
(`X = df[FEATURE_COLUMNS]`, `y = df[TARGET_COLUMN]`). -/
def exampleOf (cols : List String) (row : List ℚ) : List ℚ × ℚ :=
  (featuresOf cols row, cellOf cols row TARGET_COLUMN)

/-- The validated table as the list of `(features, label)` examples. -/
def examplesOf (t : Table) : List (List ℚ × ℚ) :=
  t.rows.map (exampleOf t.columns)

/-- Distinct label values in first-occurrence order. -/
def labelsOf (rows : List (List ℚ × ℚ)) : List ℚ :=
  (rows.map Prod.snd).dedup

/-- Examples carrying label `v`, in input order. -/
def classRows (rows : List (List ℚ × ℚ)) (v : ℚ) : List (List ℚ × ℚ) :=
  rows.filter (fun r => r.2 = v)

/-- Rows with label `v` in `rows`. -/
def countLabelIn (rows : List (List ℚ × ℚ)) (v : ℚ) : ℕ :=
  (classRows rows v).length

/-- Train-partition size of a class of `c` rows under `test_size=0.2`:
the train side keeps `⌊0.8 · c⌋` rows. -/
def classTrainCount (c : ℕ) : ℕ := 4 * c / 5

/-- Modelled from the spec: the library's seed-determined shuffle of one
label class before it is cut into train and test; a rotation by the seed
stands in for the shuffle (it preserves the class's size and label, which
is all the split's contract uses). -/
def splitClass (seed : ℕ) (rs : List (List ℚ × ℚ)) : List (List ℚ × ℚ) × List (List ℚ × ℚ) :=
  let rot := rs.rotate seed
  (rot.take (classTrainCount rs.length), rot.drop (classTrainCount rs.length))

/-- Modelled from the spec: `train_test_split(..., test_size=0.2,
stratify=y)` splits each label class separately, keeping 80% of each class
for training, so that label proportions carry over to both partitions. -/
def splitCore (seed : ℕ) (rows : List (List ℚ × ℚ)) :
    List (List ℚ × ℚ) × List (List ℚ × ℚ) :=
  ((labelsOf rows).flatMap (fun v => (splitClass seed (classRows rows v)).1),
   (labelsOf rows).flatMap (fun v => (splitClass seed (classRows rows v)).2))

/-- Modelled from the spec: the split draws its randomness from
`random_state` when one is given (the script passes `random_state=42`) and
from ambient interpreter entropy otherwise. -/
def trainTestSplit (randomState : Option ℕ) (entropy : ℕ)
    (rows : List (List ℚ × ℚ)) : List (List ℚ × ℚ) × List (List ℚ × ℚ) :=
  splitCore (randomState.getD entropy) rows

/-- Modelled from the spec: the fitted 100-tree ensemble is an opaque
deterministic function of its seed and its training partition, so the
model is represented by exactly that data. -/
structure FittedModel where
  nEstimators : ℕ
  seed : ℕ
  trainRows : List (List ℚ × ℚ)
deriving DecidableEq

/-- `RandomForestClassifier(n_estimators=100, random_state=42).fit(...)`:
seed resolution as in the split; the fit itself is deterministic. -/
def fitForest (nEstimators : ℕ) (randomState : Option ℕ) (entropy : ℕ)
    (rows : List (List ℚ × ℚ)) : FittedModel :=
  ⟨nEstimators, randomState.getD entropy, rows⟩

/-- Modelled from the spec: a deterministic stand-in for the opaque
ensemble's prediction — the majority label of the training partition
(first-seen label wins ties). -/
def majorityLabel (rows : List (List ℚ × ℚ)) : ℚ :=
  (labelsOf rows).foldl
    (fun best v => if countLabelIn rows v > countLabelIn rows best then v else best) 0

/-- Prediction of the fitted model on a feature vector. -/
def predictModel (m : FittedModel) (_x : List ℚ) : ℚ :=
  majorityLabel m.trainRows

/-- `model.score(X_test, y_test)`: fraction of test rows predicted
correctly. -/
def scoreModel (m : FittedModel) (test : List (List ℚ × ℚ)) : ℚ :=
  if test.length = 0 then 0
  else (test.countP (fun r => predictModel m r.1 = r.2) : ℚ) / (test.length : ℚ)

/-- Modelled from the spec: the ensemble's raw (unnormalized) per-feature
importance — a deterministic nonnegative score per feature column, here the
total magnitude the feature exhibits over the training partition. -/
def rawImportances (m : FittedModel) : List ℚ :=
  (List.range FEATURE_COLUMNS.length).map
    (fun i => (m.trainRows.map (fun r => |r.1.getD i 0|)).sum)

/-- `model.feature_importances_`: the raw importances normalized to sum
to 1 (spec: "normalized to sum to 1"). -/
def featureImportances (m : FittedModel) : List ℚ :=
  let s := (rawImportances m).sum
  (rawImportances m).map (fun q => q / s)

/-- `numpy`'s `.round(4)` on one value, over ℚ (ties modelled half-up;
no claim depends on tie direction). -/
def round4 (q : ℚ) : ℚ := (round (q * 10000) : ℤ) / 10000

/-- One printed stdout line, kept structural so claims can talk about both
content and shape; `render` below gives the literal text. -/
inductive Line where
  | fileNotFound (path : String)
  | genHint
  | curlExample
  | missingCol (col : String) (found : List String)
  | accuracy (score : ℚ)
  | importances (pairs : List (String × ℚ))
  | modelSaved (path : String)
deriving DecidableEq

/-- How the process ends: `sys.exit(code)`, an uncaught exception
(interpreter prints a traceback), or falling off `main` (`exited 0`). -/
inductive PyResult where
  | exited (code : ℕ)
  | uncaught (exc : String)
deriving DecidableEq

/-- CPython terminates with status 1 on an uncaught exception. -/
def processExitCode : PyResult → ℕ
  | .exited c => c
  | .uncaught _ => 1

/-- Observable outcome of a run: stdout lines in order, the termination
kind, and the artifact files written. -/
structure RunResult where
  lines : List Line
  result : PyResult
  artifacts : List String
deriving DecidableEq

/-- The runtime environment of one run:
`argv` as Python sees it (`argv.head` is the script name); the file system
as a map from normalized path to parsed table (a present entry means the
file exists and `pd.read_csv` succeeds on it); whether `import joblib`
succeeds; the exception `joblib.dump` raises, if any (`none` = the dump
succeeds); the ambient interpreter entropy that seeds the libraries when no
`random_state` is passed; and the directory holding the script
(`Path(__file__).parent`). -/
structure Env where
  argv : List String
  files : List (String × Table)
  joblibAvailable : Bool
  dumpError : Option String
  entropy : ℕ
  scriptDir : String
deriving DecidableEq

/-- `Path(__file__).parent / "risk_model.joblib"`. -/
def outPath (env : Env) : String := env.scriptDir ++ "/risk_model.joblib"

/-- The two reporting lines: `print(f"Test accuracy: {score:.4f}")` and
`print("Feature importances:", dict(zip(FEATURE_COLUMNS,
model.feature_importances_.round(4))))`. -/
def reportLines (m : FittedModel) (test : List (List ℚ × ℚ)) : List Line :=
  [Line.accuracy (scoreModel m test),
   Line.importances (FEATURE_COLUMNS.zip ((featureImportances m).map round4))]

/-- The `try: import joblib; joblib.dump(model, out_path); print(...)
except ImportError: pass` block.  A failing `import` raises `ImportError`,
which the handler swallows; an exception raised by the dump is swallowed
exactly when it is an `ImportError`, and otherwise propagates out of
`main` uncaught. -/
def persistOutcome (env : Env) (report : List Line) : RunResult :=
  if env.joblibAvailable then
    match env.dumpError with
    | some e => if e = "ImportError" then ⟨report, .exited 0, []⟩
                else ⟨report, .uncaught e, []⟩
    | none => ⟨report ++ [Line.modelSaved (outPath env)], .exited 0, [outPath env]⟩
  else ⟨report, .exited 0, []⟩

/-- `main` from the column-validation loop on, applied to the parsed
table: validate columns (exit 1 at the first absent one), split, fit,
report, persist. -/
def runTable (env : Env) (t : Table) : RunResult :=
  match firstMissingOf t with
  | some c => ⟨[Line.missingCol c t.columns], .exited 1, []⟩
  | none =>
      let rows := examplesOf t
      let parts := trainTestSplit (some 42) env.entropy rows
      let m := fitForest 100 (some 42) env.entropy parts.1
      persistOutcome env (reportLines m parts.2)

/-- The whole of `main`: resolve the path, fail with the three-line
diagnostic if the file is absent, otherwise continue on the parsed
table. -/
def run (env : Env) : RunResult :=
  let p := resolvePath env.argv
  match env.files.lookup p with
  | none => ⟨[Line.fileNotFound p, Line.genHint, Line.curlExample], .exited 1, []⟩
  | some t => runTable env t

/-- A single-quote character, as Python `repr` uses around strings. -/
def pyQuote : String := String.singleton (Char.ofNat 39)

/-- Python `repr` of a list of strings, as `print(f"... {list(df.columns)}")`
renders the found columns. -/
def pyStrList (cols : List String) : String :=
  "[" ++ String.intercalate ", " (cols.map (fun c => pyQuote ++ c ++ pyQuote)) ++ "]"

/-- Decimal digits of `n` padded to width 4 with leading zeros. -/
def natPad4 (n : ℕ) : String :=
  let s := toString n
  String.mk (List.replicate (4 - s.length) (Char.ofNat 48)) ++ s

/-- Fixed-point rendering with 4 decimals, as `f"{score:.4f}"` (ties in
the final digit modelled half-up; no claim depends on tie direction). -/
def fmt4 (q : ℚ) : String :=
  let n : ℤ := round (q * 10000)
  let a : ℕ := n.natAbs
  (if n < 0 then "-" else "") ++ toString (a / 10000) ++ "." ++ natPad4 (a % 10000)

/-- The literal text of each printed line.  The importances line shows the
dict with values in fixed-point form; Python's shortest-float repr can
drop trailing zeros there, but no claim inspects that line's text. -/
def render : Line → String
  | .fileNotFound p => "File not found: " ++ p
  | .genHint => "Generate it first: start the app, then curl the training-data endpoint."
  | .curlExample =>
      "Example: curl -s " ++ pyQuote ++
        "http://localhost:8080/api/v1/risk/demo/training-data?rows=500" ++ pyQuote ++
        " -o risk_training_data.csv"
  | .missingCol c found =>
      "Missing column: " ++ c ++ ". Expected columns: " ++ pyStrList found
  | .accuracy q => "Test accuracy: " ++ fmt4 q
  | .importances ps =>
      "Feature importances: " ++ "\x7b" ++
        String.intercalate ", "
          (ps.map (fun p => pyQuote ++ p.1 ++ pyQuote ++ ": " ++ fmt4 p.2)) ++ "\x7d"
  | .modelSaved p => "Model saved to " ++ p

/-- Values of column `c` down the table, in row order — what
`df[c]` selects. -/
def columnValues (t : Table) (c : String) : List ℚ :=
  t.rows.map (fun r => cellOf t.columns r c)

/-- A well-formed 10-row table with all seven required columns and a
50/50 label balance (each class count divisible by 5). -/
def tblW : Table :=
  ⟨requiredColumns,
   [[1, 0, 0, 0, 5, 9, 0],
    [2, 1, 1, 1, 6, 8, 0],
    [3, 1, 0, 0, 7, 7, 0],
    [4, 2, 1, 1, 8, 6, 0],
    [5, 2, 0, 0, 9, 5, 0],
    [6, 3, 1, 1, 1, 4, 1],
    [7, 3, 0, 0, 2, 3, 1],
    [8, 4, 1, 1, 3, 2, 1],
    [9, 4, 0, 0, 4, 1, 1],
    [10, 5, 1, 1, 5, 1, 1]]⟩

/-- The same data as `tblW` with the header permuted and an extra
column appended. -/
def tblWPerm : Table :=
  ⟨["label", "maxAmount", "avgAmount", "countLast1Min", "failureRate",
    "failureCount", "totalCount", "extra"],
   [[0, 9, 5, 0, 0, 0, 1, 99],
    [0, 8, 6, 1, 1, 1, 2, 99],
    [0, 7, 7, 0, 0, 1, 3, 99],
    [0, 6, 8, 1, 1, 2, 4, 99],
    [0, 5, 9, 0, 0, 2, 5, 99],
    [1, 4, 1, 1, 1, 3, 6, 99],
    [1, 3, 2, 0, 0, 3, 7, 99],
    [1, 2, 3, 1, 1, 4, 8, 99],
    [1, 1, 4, 0, 0, 4, 9, 99],
    [1, 1, 5, 1, 1, 5, 10, 99]]⟩

/-- A 5-row table (three label-0 rows, two label-1 rows) whose size makes
an exactly ratio-preserving 80/20 split impossible. -/
def tbl5 : Table :=
  ⟨requiredColumns,
   [[1, 0, 0, 0, 5, 9, 0],
    [2, 1, 1, 1, 6, 8, 0],
    [3, 1, 0, 0, 7, 7, 0],
    [6, 3, 1, 1, 1, 4, 1],
    [7, 3, 0, 0, 2, 3, 1]]⟩

/-- A well-formed table with all seven required columns whose feature
cells are identically zero: the run succeeds, but every raw importance is
zero — the degenerate case sklearn documents as an all-zero
`feature_importances_` (ensembles of single-node trees). -/
def tblZeroFeat : Table :=
  ⟨requiredColumns,
   [[0, 0, 0, 0, 0, 0, 0],
    [0, 0, 0, 0, 0, 0, 0],
    [0, 0, 0, 0, 0, 0, 0],
    [0, 0, 0, 0, 0, 0, 0],
    [0, 0, 0, 0, 0, 0, 0]]⟩

/-- A table with the six feature columns but no `label` column. -/
def tblNoLabel : Table :=
  ⟨FEATURE_COLUMNS,
   [[1, 0, 0, 0, 5, 9],
    [2, 1, 1, 1, 6, 8]]⟩

/-- A table missing `failureCount`, `maxAmount` and `label` — several
required columns absent at once. -/
def tblTwoMissing : Table :=
  ⟨["totalCount", "failureRate", "countLast1Min", "avgAmount"],
   [[1, 0, 0, 5],
    [2, 1, 1, 6]]⟩

/-- A baseline environment: the table `tblW` at `data.csv`, named as the
CLI argument; `joblib` absent; entropy 0. -/
def envValid : Env :=
  ⟨["scripts/train_risk_model.py", "data.csv"], [("data.csv", tblW)],
   false, none, 0, "scripts"⟩

/-- `envValid` with `joblib` importable and `joblib.dump` raising
`OSError` (say, the disk is full while writing the artifact). -/
def envDumpFatal : Env :=
  { envValid with joblibAvailable := true, dumpError := some "OSError" }

/-- `envValid` with `joblib` importable but the dump raising an
`ImportError` from inside serialization. -/
def envDumpImportError : Env :=
  { envValid with joblibAvailable := true, dumpError := some "ImportError" }

/-- The same run as `envValid` but with the permuted-and-extended header
table `tblWPerm` behind the same path. -/
def envPerm : Env := { envValid with files := [("data.csv", tblWPerm)] }

/-- An environment whose CLI argument `./risk.csv` names no existing
file: the argument is not in `pathlib` normal form. -/
def envDotPath : Env :=
  ⟨["scripts/train_risk_model.py", "./risk.csv"], [], false, none, 0, "scripts"⟩

/-- The model the script fits on a validated table: seed 42, 100 trees,
the 80% train partition of the seed-42 split.  Agrees definitionally with
the model built inside `run`, whatever the ambient entropy. -/
def trainedOn (t : Table) : FittedModel :=
  fitForest 100 (some 42) 0 (splitCore 42 (examplesOf t)).1

/-- The 20% test partition the script scores against. -/
def testPartOf (t : Table) : List (List ℚ × ℚ) :=
  (splitCore 42 (examplesOf t)).2

/-- The two conditions under which the script calls `sys.exit(1)`: the
resolved file is absent, or a required column is missing from the parsed
table. -/
def validationFailsB (env : Env) : Bool :=
  match env.files.lookup (resolvePath env.argv) with
  | none => true
  | some t => (firstMissingOf t).isSome

/-- The persistence step does not raise anything the `except ImportError`
handler fails to catch: either `joblib` is unavailable, or its dump
succeeds or raises only `ImportError`. -/
def dumpNonFatal (env : Env) : Prop :=
  env.joblibAvailable = true → env.dumpError = none ∨ env.dumpError = some "ImportError"

/-- `envValid` with the same path bound to the all-zero-feature table. -/
def envZeroFeat : Env := { envValid with files := [("data.csv", tblZeroFeat)] }

/-- `envValid` with the same path bound to a table lacking `label`. -/
def envNoLabel : Env := { envValid with files := [("data.csv", tblNoLabel)] }

/-- `envValid` with the same path bound to `tblTwoMissing`. -/
def envTwoMissing : Env := { envValid with files := [("data.csv", tblTwoMissing)] }

theorem run_of_lookup_none (env : Env)
    (h : env.files.lookup (resolvePath env.argv) = none) :
    run env = ⟨[Line.fileNotFound (resolvePath env.argv), Line.genHint, Line.curlExample],
      PyResult.exited 1, []⟩ := by
  simp [run, h]

theorem run_of_lookup_some (env : Env) (t : Table)
    (h : env.files.lookup (resolvePath env.argv) = some t) :
    run env = runTable env t := by
  simp [run, h]

theorem runTable_of_missing (env : Env) (t : Table) (c : String)
    (h : firstMissingOf t = some c) :
    runTable env t = ⟨[Line.missingCol c t.columns], PyResult.exited 1, []⟩ := by
  simp [runTable, h]

theorem runTable_of_valid (env : Env) (t : Table)
    (h : firstMissingOf t = none) :
    runTable env t = persistOutcome env (reportLines (trainedOn t) (testPartOf t)) := by
  unfold runTable
  rw [h]
  rfl

theorem listPre_self : ∀ n : List Char, listPre n n = true := by
  intro n
  induction n with
  | nil => rfl
  | cons a n ih => simp [listPre, ih]

theorem listSub_append : ∀ x n : List Char, listSub n (x ++ n) = true := by
  intro x
  induction x with
  | nil =>
      intro n
      cases n with
      | nil => rfl
      | cons b h => simp [listSub, listPre_self]
  | cons a x ih =>
      intro n
      simp [listSub, ih n]

theorem strContains_append (a b : String) : strContains (a ++ b) b = true := by
  simp [strContains, listSub_append]

/-- C3: a parsed table lacking a required column makes the program print
one diagnostic line — naming a missing required column and listing the
columns actually found — and exit with code 1; no report line is printed
and no artifact is written, so training does not proceed. -/
theorem C3_schema_mismatch_fails_fast (env : Env) (t : Table) (c : String)
    (hlook : env.files.lookup (resolvePath env.argv) = some t)
    (hreq : c ∈ requiredColumns) (hmiss : c ∉ t.columns) :
    ∃ c₀, c₀ ∈ requiredColumns ∧ c₀ ∉ t.columns ∧
      run env = ⟨[Line.missingCol c₀ t.columns], PyResult.exited 1, []⟩ ∧
      render (Line.missingCol c₀ t.columns) =
        "Missing column: " ++ c₀ ++ ". Expected columns: " ++ pyStrList t.columns := by
  have hsome : (firstMissingOf t).isSome := by
    rw [firstMissingOf, List.find?_isSome]
    exact ⟨c, hreq, by simpa using hmiss⟩
  obtain ⟨c₀, hc₀⟩ := Option.isSome_iff_exists.mp hsome
  refine ⟨c₀, List.mem_of_find?_eq_some hc₀, ?_, ?_, rfl⟩
  · simpa using List.find?_some hc₀
  · rw [run_of_lookup_some env t hlook, runTable_of_missing env t c₀ hc₀]

theorem C3_witness :
    ∃ c₀, c₀ ∈ requiredColumns ∧ c₀ ∉ tblNoLabel.columns ∧
      run envNoLabel = ⟨[Line.missingCol c₀ tblNoLabel.columns], PyResult.exited 1, []⟩ ∧
      render (Line.missingCol c₀ tblNoLabel.columns) =
        "Missing column: " ++ c₀ ++ ". Expected columns: " ++ pyStrList tblNoLabel.columns :=
  C3_schema_mismatch_fails_fast envNoLabel tblNoLabel "label" (by decide) (by decide)
    (by decide)

/-- C9: validation walks the columns in the fixed order `totalCount,
failureCount, failureRate, countLast1Min, avgAmount, maxAmount, label`
and exits at the first absent one, so when several are missing the
diagnostic names exactly the first missing column in that order, and its
message labels the columns found in the file as "Expected columns". -/
theorem C9_first_missing_in_fixed_order (env : Env) (t : Table) (c : String)
    (rest : List String)
    (hlook : env.files.lookup (resolvePath env.argv) = some t)
    (hfilter : requiredColumns.filter (fun c => !(t.columns.contains c)) = c :: rest) :
    run env = ⟨[Line.missingCol c t.columns], PyResult.exited 1, []⟩ ∧
    render (Line.missingCol c t.columns) =
      "Missing column: " ++ c ++ ". Expected columns: " ++ pyStrList t.columns := by
  have hfm : firstMissingOf t = some c := by
    rw [firstMissingOf, ← List.filter_head?, hfilter]
    rfl
  exact ⟨by rw [run_of_lookup_some env t hlook, runTable_of_missing env t c hfm], rfl⟩

theorem C9_witness :
    run envTwoMissing =
      ⟨[Line.missingCol "failureCount" tblTwoMissing.columns], PyResult.exited 1, []⟩ ∧
    render (Line.missingCol "failureCount" tblTwoMissing.columns) =
      "Missing column: " ++ "failureCount" ++ ". Expected columns: " ++
        pyStrList tblTwoMissing.columns :=
  C9_first_missing_in_fixed_order envTwoMissing tblTwoMissing "failureCount"
    ["maxAmount", "label"] (by decide) (by decide)

/-- C7 (amended): on a nonexistent input path the program prints the
three-line diagnostic (file-not-found naming the displayed path, the
regeneration hint, and the `curl` example for the documented HTTP
endpoint) and exits 1 before any training output or artifact; the
diagnostic contains the `pathlib`-normalized form of the provided path,
and contains the provided path verbatim whenever that path is already in
normal form — which the script's default filename always is. -/
theorem C7_file_not_found_diagnostic (env : Env)
    (hnone : env.files.lookup (resolvePath env.argv) = none) :
    run env = ⟨[Line.fileNotFound (resolvePath env.argv), Line.genHint, Line.curlExample],
      PyResult.exited 1, []⟩ ∧
    strContains (render (Line.fileNotFound (resolvePath env.argv)))
      (resolvePath env.argv) = true ∧
    (∀ s a rest, env.argv = s :: a :: rest → pathStr a = a →
      strContains (render (Line.fileNotFound (resolvePath env.argv))) a = true) := by
  refine ⟨run_of_lookup_none env hnone, strContains_append _ _, ?_⟩
  intro s a rest hargv hnorm
  have hr : resolvePath env.argv = a := by rw [hargv, resolvePath, hnorm]
  rw [hr]
  exact strContains_append _ _

theorem C7_witness :
    run { envDotPath with argv := ["scripts/train_risk_model.py", "risk.csv"] } =
      ⟨[Line.fileNotFound "risk.csv", Line.genHint, Line.curlExample],
        PyResult.exited 1, []⟩ ∧
    strContains (render (Line.fileNotFound "risk.csv")) "risk.csv" = true := by
  have h := C7_file_not_found_diagnostic
    { envDotPath with argv := ["scripts/train_risk_model.py", "risk.csv"] } (by decide)
  have hr : resolvePath ["scripts/train_risk_model.py", "risk.csv"] = "risk.csv" := by decide
  refine ⟨?_, ?_⟩
  · have h1 := h.1
    rw [hr] at h1
    exact h1
  · have h2 := h.2.1
    rw [hr] at h2
    exact h2

theorem C7_counterexample :
    (run envDotPath).result = PyResult.exited 1 ∧
    (run envDotPath).lines.map (fun l => strContains (render l) "./risk.csv") =
      [false, false, false] := by decide

/-- C1 (amended): provided the persistence step raises nothing the
`except ImportError` handler fails to catch, the process exit code is 1
exactly when the input file is absent or a required column is missing,
and 0 in every other case.  (Without that proviso the claim fails: see
the counterexample, where a dump failure ends the process with a
traceback and a nonzero status.) -/
theorem C1_exit_codes_amended (env : Env) (h : dumpNonFatal env) :
    processExitCode (run env).result = if validationFailsB env then 1 else 0 := by
  cases hl : env.files.lookup (resolvePath env.argv) with
  | none =>
      rw [run_of_lookup_none env hl]
      simp [validationFailsB, hl, processExitCode]
  | some t =>
      rw [run_of_lookup_some env t hl]
      cases hm : firstMissingOf t with
      | some c =>
          rw [runTable_of_missing env t c hm]
          simp [validationFailsB, hl, hm, processExitCode]
      | none =>
          rw [runTable_of_valid env t hm]
          have hv : validationFailsB env = false := by simp [validationFailsB, hl, hm]
          rw [hv]
          cases hj : env.joblibAvailable with
          | false => simp [persistOutcome, hj, processExitCode]
          | true =>
              rcases h hj with hd | hd <;>
                simp [persistOutcome, hj, hd, processExitCode]

theorem C1_witness : processExitCode (run envValid).result = 0 := by
  have hv : validationFailsB envValid = false := by decide
  have h := C1_exit_codes_amended envValid (by intro hj; exact absurd hj (by decide))
  rw [hv] at h
  simpa using h

theorem C1_counterexample :
    validationFailsB envDumpFatal = false ∧
    processExitCode (run envDumpFatal).result = 1 := by decide

/-- C2: when `import joblib` fails, the persistence step is skipped
silently — the run still ends by falling off `main` (exit 0), writes no
artifact, and prints exactly the two report lines; a run differing only
in having a working `joblib` prints the same report and merely appends
the saved-model line. -/
theorem C2_persistence_skipped_silently (env : Env) (t : Table)
    (hlook : env.files.lookup (resolvePath env.argv) = some t)
    (hcols : firstMissingOf t = none)
    (hjl : env.joblibAvailable = false) :
    (run env).result = PyResult.exited 0 ∧
    (run env).artifacts = [] ∧
    (run env).lines = reportLines (trainedOn t) (testPartOf t) ∧
    (run { env with joblibAvailable := true, dumpError := none }).lines =
      (run env).lines ++ [Line.modelSaved (outPath env)] := by
  have h1 : run env = persistOutcome env (reportLines (trainedOn t) (testPartOf t)) := by
    rw [run_of_lookup_some env t hlook, runTable_of_valid env t hcols]
  have h2 : run { env with joblibAvailable := true, dumpError := none } =
      persistOutcome { env with joblibAvailable := true, dumpError := none }
        (reportLines (trainedOn t) (testPartOf t)) := by
    rw [run_of_lookup_some { env with joblibAvailable := true, dumpError := none } t
          (by exact hlook),
        runTable_of_valid { env with joblibAvailable := true, dumpError := none } t hcols]
  rw [h1, h2]
  simp [persistOutcome, hjl, outPath]

theorem C2_witness :
    (run envValid).result = PyResult.exited 0 ∧
    (run envValid).artifacts = [] ∧
    (run envValid).lines = reportLines (trainedOn tblW) (testPartOf tblW) ∧
    (run { envValid with joblibAvailable := true, dumpError := none }).lines =
      (run envValid).lines ++ [Line.modelSaved (outPath envValid)] :=
  C2_persistence_skipped_silently envValid tblW (by decide) (by decide) (by decide)

/-- C10 (amended): the `try/except ImportError` around persistence
swallows any `ImportError` — from the import or from the dump itself —
while every non-`ImportError` failure of the dump propagates out of
`main` uncaught, terminating the process with a nonzero status, after
the accuracy and feature-importance lines have already been printed. -/
theorem C10_dump_exception_handling (env : Env) (t : Table) (e : String)
    (hlook : env.files.lookup (resolvePath env.argv) = some t)
    (hcols : firstMissingOf t = none)
    (hjl : env.joblibAvailable = true)
    (hde : env.dumpError = some e) :
    (e ≠ "ImportError" →
      run env = ⟨reportLines (trainedOn t) (testPartOf t), PyResult.uncaught e, []⟩ ∧
      processExitCode (run env).result = 1) ∧
    (e = "ImportError" →
      run env = ⟨reportLines (trainedOn t) (testPartOf t), PyResult.exited 0, []⟩) := by
  have h1 : run env = persistOutcome env (reportLines (trainedOn t) (testPartOf t)) := by
    rw [run_of_lookup_some env t hlook, runTable_of_valid env t hcols]
  rw [h1]
  constructor
  · intro hne
    constructor <;> simp [persistOutcome, hjl, hde, hne, processExitCode]
  · intro heq
    simp [persistOutcome, hjl, hde, heq]

theorem C10_witness :
    run envDumpFatal =
      ⟨reportLines (trainedOn tblW) (testPartOf tblW), PyResult.uncaught "OSError", []⟩ ∧
    processExitCode (run envDumpFatal).result = 1 :=
  (C10_dump_exception_handling envDumpFatal tblW "OSError" (by decide) (by decide)
    (by decide) (by decide)).1 (by decide)

theorem C10_counterexample :
    (run envDumpImportError).result = PyResult.exited 0 ∧
    (run envDumpImportError).artifacts = [] := by decide

/-- C5: the split and the fit draw their randomness from the fixed
`random_state=42`, never from ambient interpreter entropy, so two runs on
identical input — whatever entropy the interpreter happens to hold —
produce identical output: the same reported accuracy line, the same
feature-importance values, the same everything. -/
theorem C5_determinism_under_fixed_seeds (env : Env) (e₁ e₂ : ℕ) :
    run { env with entropy := e₁ } = run { env with entropy := e₂ } := rfl

theorem examplesOf_eq_of_columnValues (t t' : Table)
    (hvals : ∀ c ∈ requiredColumns, columnValues t c = columnValues t' c) :
    examplesOf t = examplesOf t' := by
  have hlen : t.rows.length = t'.rows.length := by
    have h0 := congrArg List.length (hvals "totalCount" (by decide))
    simpa [columnValues] using h0
  apply List.ext_getElem
  · simp [examplesOf, hlen]
  · intro i h₁ h₂
    have hb₁ : i < t.rows.length := by simpa [examplesOf] using h₁
    have hb₂ : i < t'.rows.length := by simpa [examplesOf] using h₂
    have hcell : ∀ c ∈ requiredColumns,
        cellOf t.columns (t.rows[i]) c = cellOf t'.columns (t'.rows[i]) c := by
      intro c hcr
      have h0 := congrArg (fun l => l.getD i 0) (hvals c hcr)
      simpa [columnValues, List.getD_eq_getElem?_getD, List.getElem?_map,
        List.getElem?_eq_getElem, hb₁, hb₂] using h0
    simp only [examplesOf, List.getElem_map, exampleOf, featuresOf, Prod.mk.injEq]
    constructor
    · exact List.map_congr_left (fun c hcf => hcell c (List.mem_append_left _ hcf))
    · exact hcell TARGET_COLUMN (by decide)

/-- C8: columns are selected by name — `df[FEATURE_COLUMNS]` in the fixed
order, `df["label"]` — so two runs whose tables agree on the values of the
seven named columns produce identical output, no matter how the headers
are permuted and what extra columns are present. -/
theorem C8_columns_selected_by_name (env env' : Env) (t t' : Table)
    (hlook : env.files.lookup (resolvePath env.argv) = some t)
    (hlook' : env'.files.lookup (resolvePath env'.argv) = some t')
    (hjl : env'.joblibAvailable = env.joblibAvailable)
    (hde : env'.dumpError = env.dumpError)
    (hsd : env'.scriptDir = env.scriptDir)
    (hc : ∀ c ∈ requiredColumns, c ∈ t.columns)
    (hc' : ∀ c ∈ requiredColumns, c ∈ t'.columns)
    (hvals : ∀ c ∈ requiredColumns, columnValues t c = columnValues t' c) :
    run env = run env' := by
  have hm : firstMissingOf t = none := by
    rw [firstMissingOf]
    exact List.find?_eq_none.mpr (fun c hcr => by simp [hc c hcr])
  have hm' : firstMissingOf t' = none := by
    rw [firstMissingOf]
    exact List.find?_eq_none.mpr (fun c hcr => by simp [hc' c hcr])
  have hex := examplesOf_eq_of_columnValues t t' hvals
  have he1 : trainedOn t = trainedOn t' := by unfold trainedOn; rw [hex]
  have he2 : testPartOf t = testPartOf t' := by unfold testPartOf; rw [hex]
  rw [run_of_lookup_some env t hlook, runTable_of_valid env t hm,
    run_of_lookup_some env' t' hlook', runTable_of_valid env' t' hm', he1, he2]
  simp [persistOutcome, outPath, hjl, hde, hsd]

theorem C8_witness : run envValid = run envPerm :=
  C8_columns_selected_by_name envValid envPerm tblW tblWPerm (by decide) (by decide)
    (by decide) (by decide) (by decide) (by decide) (by decide) (by decide)

theorem round4_close (q : ℚ) : |round4 q - q| ≤ 1 / 20000 := by
  rw [round4]
  have h := abs_sub_round (q * 10000)
  rw [abs_sub_comm] at h
  have he : ((round (q * 10000) : ℤ) : ℚ) / 10000 - q =
      (((round (q * 10000) : ℤ) : ℚ) - q * 10000) / 10000 := by ring
  rw [he, abs_div]
  have h10 : |(10000 : ℚ)| = 10000 := by norm_num
  rw [h10]
  calc |((round (q * 10000) : ℤ) : ℚ) - q * 10000| / 10000
      ≤ (1 / 2) / 10000 := by
        apply (div_le_div_iff_of_pos_right (by norm_num)).mpr h
    _ = 1 / 20000 := by norm_num

theorem sum_round4_close (l : List ℚ) :
    |(l.map round4).sum - l.sum| ≤ (l.length : ℚ) * (1 / 20000) := by
  induction l with
  | nil => simp
  | cons a l ih =>
      simp only [List.map_cons, List.sum_cons, List.length_cons]
      have step : round4 a + (l.map round4).sum - (a + l.sum) =
          (round4 a - a) + ((l.map round4).sum - l.sum) := by ring
      calc |round4 a + (l.map round4).sum - (a + l.sum)|
          = |(round4 a - a) + ((l.map round4).sum - l.sum)| := by rw [step]
        _ ≤ |round4 a - a| + |(l.map round4).sum - l.sum| := abs_add _ _
        _ ≤ 1 / 20000 + (l.length : ℚ) * (1 / 20000) := add_le_add (round4_close a) ih
        _ = ((l.length + 1 : ℕ) : ℚ) * (1 / 20000) := by push_cast; ring

theorem sum_map_div (l : List ℚ) (s : ℚ) :
    (l.map (fun q => q / s)).sum = l.sum / s := by
  induction l with
  | nil => simp
  | cons a l ih => simp [ih, add_div]

theorem featureImportances_sum (m : FittedModel)
    (h : (rawImportances m).sum ≠ 0) : (featureImportances m).sum = 1 := by
  rw [featureImportances]
  simp only [sum_map_div]
  exact div_self h

theorem featureImportances_length (m : FittedModel) :
    (featureImportances m).length = FEATURE_COLUMNS.length := by
  simp [featureImportances, rawImportances]

theorem rawImportances_sum_pos (m : FittedModel) (r : List ℚ × ℚ)
    (hr : r ∈ m.trainRows) (h0 : 0 < |r.1.getD 0 0|) :
    0 < (rawImportances m).sum := by
  have habs : ∀ y ∈ m.trainRows.map (fun rr => |rr.1.getD 0 0|), 0 ≤ y := by
    intro y hy
    obtain ⟨rr, _, rfl⟩ := List.mem_map.mp hy
    exact abs_nonneg _
  have hentry : 0 < (m.trainRows.map (fun rr => |rr.1.getD 0 0|)).sum :=
    lt_of_lt_of_le h0 (List.single_le_sum habs _ (List.mem_map_of_mem _ hr))
  have hnn : ∀ x ∈ rawImportances m, 0 ≤ x := by
    intro x hx
    obtain ⟨i, _, rfl⟩ := List.mem_map.mp hx
    apply List.sum_nonneg
    intro y hy
    obtain ⟨rr, _, rfl⟩ := List.mem_map.mp hy
    exact abs_nonneg _
  have hmem : (m.trainRows.map (fun rr => |rr.1.getD 0 0|)).sum ∈ rawImportances m := by
    rw [rawImportances]
    exact List.mem_map_of_mem _ (by simp [FEATURE_COLUMNS])
  exact lt_of_lt_of_le hentry (List.single_le_sum hnn _ hmem)

theorem persistOutcome_lines (env : Env) (r : List Line) :
    ∃ tail, (persistOutcome env r).lines = r ++ tail := by
  unfold persistOutcome
  cases env.joblibAvailable with
  | false => exact ⟨[], by simp⟩
  | true =>
      cases env.dumpError with
      | none => exact ⟨[Line.modelSaved (outPath env)], by simp⟩
      | some e =>
          by_cases he : e = "ImportError" <;> exact ⟨[], by simp [he]⟩

/-- C6 (amended): on every successful run the feature-importance line
pairs the column names, in the fixed order `totalCount, failureCount,
failureRate, countLast1Min, avgAmount, maxAmount`, with the normalized
importances rounded to 4 decimals; whenever the raw importance total is
nonzero the normalized importances sum to exactly 1 and the displayed
values to within the cumulative 4-decimal rounding error of 3/10000.
When the raw total is zero the reported importances are all zero and sum
to 0, not 1 — see the counterexample. -/
theorem C6_importances_normalized_and_ordered (env : Env) (t : Table)
    (hlook : env.files.lookup (resolvePath env.argv) = some t)
    (hcols : firstMissingOf t = none) :
    ∃ ps, Line.importances ps ∈ (run env).lines ∧
      ps.map Prod.fst = FEATURE_COLUMNS ∧
      ps.map Prod.snd = (featureImportances (trainedOn t)).map round4 ∧
      ((rawImportances (trainedOn t)).sum ≠ 0 →
        (featureImportances (trainedOn t)).sum = 1 ∧
        |(ps.map Prod.snd).sum - 1| ≤ 3 / 10000) := by
  have h1 : run env = persistOutcome env (reportLines (trainedOn t) (testPartOf t)) := by
    rw [run_of_lookup_some env t hlook, runTable_of_valid env t hcols]
  have hlen : ((featureImportances (trainedOn t)).map round4).length =
      FEATURE_COLUMNS.length := by
    simp [featureImportances_length]
  refine ⟨FEATURE_COLUMNS.zip ((featureImportances (trainedOn t)).map round4),
    ?_, ?_, ?_, ?_⟩
  · rw [h1]
    obtain ⟨tail, htail⟩ := persistOutcome_lines env (reportLines (trainedOn t) (testPartOf t))
    rw [htail]
    exact List.mem_append_left _ (by simp [reportLines])
  · exact List.map_fst_zip _ _ (le_of_eq hlen.symm)
  · exact List.map_snd_zip _ _ (le_of_eq hlen)
  · intro hpos
    refine ⟨featureImportances_sum _ hpos, ?_⟩
    rw [List.map_snd_zip _ _ (le_of_eq hlen)]
    have hb := sum_round4_close (featureImportances (trainedOn t))
    rw [featureImportances_sum _ hpos] at hb
    rw [featureImportances_length] at hb
    calc |((featureImportances (trainedOn t)).map round4).sum - 1|
        ≤ (FEATURE_COLUMNS.length : ℚ) * (1 / 20000) := hb
      _ = 3 / 10000 := by norm_num [FEATURE_COLUMNS]

theorem getD_zeros_eq_zero : ∀ i : ℕ, (([0, 0, 0, 0, 0, 0] : List ℚ)).getD i 0 = 0 := by
  intro i
  match i with
  | 0 => rfl
  | 1 => rfl
  | 2 => rfl
  | 3 => rfl
  | 4 => rfl
  | 5 => rfl
  | n + 6 => rfl

theorem C6_counterexample :
    (run envZeroFeat).result = PyResult.exited 0 ∧
    Line.importances (FEATURE_COLUMNS.zip
      ((featureImportances (trainedOn tblZeroFeat)).map round4)) ∈ (run envZeroFeat).lines ∧
    (featureImportances (trainedOn tblZeroFeat)).sum = 0 ∧
    (featureImportances (trainedOn tblZeroFeat)).sum ≠ 1 ∧
    ((featureImportances (trainedOn tblZeroFeat)).map round4).sum = 0 := by
  have hlook : envZeroFeat.files.lookup (resolvePath envZeroFeat.argv) = some tblZeroFeat := by
    decide
  have hcols : firstMissingOf tblZeroFeat = none := by decide
  have h1 : run envZeroFeat =
      persistOutcome envZeroFeat (reportLines (trainedOn tblZeroFeat) (testPartOf tblZeroFeat)) := by
    rw [run_of_lookup_some envZeroFeat tblZeroFeat hlook,
      runTable_of_valid envZeroFeat tblZeroFeat hcols]
  have hjl : envZeroFeat.joblibAvailable = false := rfl
  have htr : (trainedOn tblZeroFeat).trainRows =
      [(([0, 0, 0, 0, 0, 0] : List ℚ), (0 : ℚ)), (([0, 0, 0, 0, 0, 0] : List ℚ), (0 : ℚ)),
       (([0, 0, 0, 0, 0, 0] : List ℚ), (0 : ℚ)), (([0, 0, 0, 0, 0, 0] : List ℚ), (0 : ℚ))] := by
    decide
  have hraw : ∀ q ∈ rawImportances (trainedOn tblZeroFeat), q = 0 := by
    intro q hq
    simp only [rawImportances, List.mem_map] at hq
    obtain ⟨i, _, rfl⟩ := hq
    apply List.sum_eq_zero
    intro y hy
    obtain ⟨r, hr, rfl⟩ := List.mem_map.mp hy
    rw [htr] at hr
    have hr1 : r.1 = ([0, 0, 0, 0, 0, 0] : List ℚ) := by
      simp only [List.mem_cons, List.not_mem_nil, or_false] at hr
      rcases hr with h | h | h | h <;> rw [h]
    rw [hr1, getD_zeros_eq_zero i, abs_zero]
  have hz : ∀ x ∈ featureImportances (trainedOn tblZeroFeat), x = 0 := by
    intro x hx
    simp only [featureImportances, List.mem_map] at hx
    obtain ⟨q, hq, rfl⟩ := hx
    rw [hraw q hq, zero_div]
  have hsum : (featureImportances (trainedOn tblZeroFeat)).sum = 0 := List.sum_eq_zero hz
  refine ⟨by decide, ?_, hsum, by rw [hsum]; norm_num, ?_⟩
  · rw [h1]
    simp [persistOutcome, hjl, reportLines]
  · apply List.sum_eq_zero
    intro y hy
    obtain ⟨x, hx, rfl⟩ := List.mem_map.mp hy
    rw [hz x hx]
    simp [round4]

theorem C6_witness :
    ∃ ps, Line.importances ps ∈ (run envValid).lines ∧
      ps.map Prod.fst = FEATURE_COLUMNS ∧
      ps.map Prod.snd = (featureImportances (trainedOn tblW)).map round4 ∧
      (featureImportances (trainedOn tblW)).sum = 1 ∧
      |(ps.map Prod.snd).sum - 1| ≤ 3 / 10000 := by
  obtain ⟨ps, hmem, hfst, hsnd, hsum⟩ :=
    C6_importances_normalized_and_ordered envValid tblW (by decide) (by decide)
  have hpos : (rawImportances (trainedOn tblW)).sum ≠ 0 := by
    have hr : (([1, 0, 0, 0, 5, 9] : List ℚ), (0 : ℚ)) ∈ (trainedOn tblW).trainRows := by
      decide
    have h0 : (0 : ℚ) < |(([1, 0, 0, 0, 5, 9] : List ℚ), (0 : ℚ)).1.getD 0 0| := by
      have he : (([1, 0, 0, 0, 5, 9] : List ℚ), (0 : ℚ)).1.getD 0 0 = 1 := rfl
      rw [he]
      norm_num
    exact (rawImportances_sum_pos (trainedOn tblW) _ hr h0).ne'
  obtain ⟨h1, h2⟩ := hsum hpos
  exact ⟨ps, hmem, hfst, hsnd, h1, h2⟩

theorem classTrainCount_le (c : ℕ) : classTrainCount c ≤ c := by
  unfold classTrainCount
  omega

theorem splitClass_len_train (seed : ℕ) (rs : List (List ℚ × ℚ)) :
    (splitClass seed rs).1.length = classTrainCount rs.length := by
  simp [splitClass, List.length_rotate, min_eq_left (classTrainCount_le rs.length)]

theorem splitClass_len_test (seed : ℕ) (rs : List (List ℚ × ℚ)) :
    (splitClass seed rs).2.length = rs.length - classTrainCount rs.length := by
  simp [splitClass, List.length_rotate]

theorem mem_of_splitClass_train (seed : ℕ) (rs : List (List ℚ × ℚ)) (r : List ℚ × ℚ)
    (h : r ∈ (splitClass seed rs).1) : r ∈ rs :=
  List.mem_rotate.mp (List.mem_of_mem_take h)

theorem mem_of_splitClass_test (seed : ℕ) (rs : List (List ℚ × ℚ)) (r : List ℚ × ℚ)
    (h : r ∈ (splitClass seed rs).2) : r ∈ rs :=
  List.mem_rotate.mp (List.mem_of_mem_drop h)

theorem classRows_label (rows : List (List ℚ × ℚ)) (v : ℚ) :
    ∀ r ∈ classRows rows v, r.2 = v := by
  intro r hr
  simpa using (List.mem_filter.mp hr).2

theorem countLabelIn_eq_countP (l : List (List ℚ × ℚ)) (v : ℚ) :
    countLabelIn l v = l.countP (fun r => decide (r.2 = v)) :=
  (List.countP_eq_length_filter _ _).symm

theorem sum_map_single : ∀ l : List ℚ, l.Nodup → ∀ v : ℚ, v ∈ l → ∀ g : ℚ → ℕ,
    (∀ w ∈ l, w ≠ v → g w = 0) → (l.map g).sum = g v := by
  intro l
  induction l with
  | nil => intro _ v hv; cases hv
  | cons a l ih =>
      intro hnd v hv g h0
      rw [List.map_cons, List.sum_cons]
      rcases List.mem_cons.mp hv with rfl | hvl
      · have hz : ∀ x ∈ l.map g, x = 0 := by
          intro x hx
          obtain ⟨w, hw, rfl⟩ := List.mem_map.mp hx
          exact h0 w (List.mem_cons_of_mem _ hw)
            (fun hwv => (List.nodup_cons.mp hnd).1 (hwv ▸ hw))
        rw [List.sum_eq_zero hz]
        exact Nat.add_zero _
      · have hane : a ≠ v := fun hav => (List.nodup_cons.mp hnd).1 (hav ▸ hvl)
        rw [h0 a (List.mem_cons_self a l) hane,
          ih (List.nodup_cons.mp hnd).2 v hvl g
            (fun w hw hwv => h0 w (List.mem_cons_of_mem _ hw) hwv)]
        exact Nat.zero_add _

theorem countLabelIn_splitCore_train (seed : ℕ) (rows : List (List ℚ × ℚ)) (v : ℚ)
    (hv : v ∈ labelsOf rows) :
    countLabelIn (splitCore seed rows).1 v = classTrainCount (countLabelIn rows v) := by
  rw [countLabelIn_eq_countP]
  show ((labelsOf rows).flatMap
      (fun u => (splitClass seed (classRows rows u)).1)).countP
      (fun r => decide (r.2 = v)) = _
  rw [List.countP_flatMap]
  rw [sum_map_single (labelsOf rows) (List.nodup_dedup _) v hv _ ?zero]
  case zero =>
    intro w _ hwv
    simp only [Function.comp]
    rw [List.countP_eq_zero]
    intro r hr
    have h2 : r.2 = w := classRows_label rows w r (mem_of_splitClass_train seed _ r hr)
    simp [h2, hwv]
  · simp only [Function.comp]
    rw [List.countP_eq_length.mpr ?all, splitClass_len_train]
    case all =>
      intro r hr
      have h2 : r.2 = v := classRows_label rows v r (mem_of_splitClass_train seed _ r hr)
      simp [h2]
    rfl

theorem countLabelIn_splitCore_test (seed : ℕ) (rows : List (List ℚ × ℚ)) (v : ℚ)
    (hv : v ∈ labelsOf rows) :
    countLabelIn (splitCore seed rows).2 v =
      countLabelIn rows v - classTrainCount (countLabelIn rows v) := by
  rw [countLabelIn_eq_countP]
  show ((labelsOf rows).flatMap
      (fun u => (splitClass seed (classRows rows u)).2)).countP
      (fun r => decide (r.2 = v)) = _
  rw [List.countP_flatMap]
  rw [sum_map_single (labelsOf rows) (List.nodup_dedup _) v hv _ ?zero]
  case zero =>
    intro w _ hwv
    simp only [Function.comp]
    rw [List.countP_eq_zero]
    intro r hr
    have h2 : r.2 = w := classRows_label rows w r (mem_of_splitClass_test seed _ r hr)
    simp [h2, hwv]
  · simp only [Function.comp]
    rw [List.countP_eq_length.mpr ?all, splitClass_len_test]
    case all =>
      intro r hr
      have h2 : r.2 = v := classRows_label rows v r (mem_of_splitClass_test seed _ r hr)
      simp [h2]
    rfl

theorem splitCore_len_train (seed : ℕ) (rows : List (List ℚ × ℚ)) :
    (splitCore seed rows).1.length =
      ((labelsOf rows).map (fun v => classTrainCount (countLabelIn rows v))).sum := by
  simp only [splitCore, List.length_flatMap]
  exact congrArg List.sum (List.map_congr_left
    (fun v _ => by simp only [Function.comp]; exact splitClass_len_train seed _))

theorem splitCore_len_test (seed : ℕ) (rows : List (List ℚ × ℚ)) :
    (splitCore seed rows).2.length =
      ((labelsOf rows).map
        (fun v => countLabelIn rows v - classTrainCount (countLabelIn rows v))).sum := by
  simp only [splitCore, List.length_flatMap]
  exact congrArg List.sum (List.map_congr_left
    (fun v _ => by simp only [Function.comp]; exact splitClass_len_test seed _))

theorem sum_countLabelIn (rows : List (List ℚ × ℚ)) :
    ((labelsOf rows).map (fun v => countLabelIn rows v)).sum = rows.length := by
  have h1 : ∀ v : ℚ, countLabelIn rows v = (rows.map Prod.snd).count v := by
    intro v
    rw [countLabelIn_eq_countP, List.count, List.countP_map]
    rfl
  rw [List.map_congr_left (fun v _ => h1 v)]
  have h2 := List.sum_map_count_dedup_eq_length (rows.map Prod.snd)
  simpa [labelsOf] using h2

theorem splitCore_stratified_sizes (rows : List (List ℚ × ℚ))
    (hdiv : ∀ v ∈ labelsOf rows, 5 ∣ countLabelIn rows v) (seed : ℕ) :
    5 * (splitCore seed rows).1.length = 4 * rows.length ∧
    5 * (splitCore seed rows).2.length = rows.length := by
  constructor
  · rw [splitCore_len_train]
    calc 5 * ((labelsOf rows).map (fun v => classTrainCount (countLabelIn rows v))).sum
        = ((labelsOf rows).map (fun v => 5 * classTrainCount (countLabelIn rows v))).sum :=
          (List.sum_map_mul_left _ _ _).symm
      _ = ((labelsOf rows).map (fun v => 4 * countLabelIn rows v)).sum := by
          refine congrArg List.sum (List.map_congr_left ?_)
          intro v hv
          obtain ⟨k, hk⟩ := hdiv v hv
          unfold classTrainCount
          omega
      _ = 4 * ((labelsOf rows).map (fun v => countLabelIn rows v)).sum :=
          List.sum_map_mul_left _ _ _
      _ = 4 * rows.length := by rw [sum_countLabelIn]
  · rw [splitCore_len_test]
    calc 5 * ((labelsOf rows).map
          (fun v => countLabelIn rows v - classTrainCount (countLabelIn rows v))).sum
        = ((labelsOf rows).map
            (fun v => 5 * (countLabelIn rows v - classTrainCount (countLabelIn rows v)))).sum :=
          (List.sum_map_mul_left _ _ _).symm
      _ = ((labelsOf rows).map (fun v => countLabelIn rows v)).sum := by
          refine congrArg List.sum (List.map_congr_left ?_)
          intro v hv
          obtain ⟨k, hk⟩ := hdiv v hv
          unfold classTrainCount
          omega
      _ = rows.length := sum_countLabelIn rows

/-- C4 (amended): the script's split is deterministic — `random_state=42`
makes it independent of ambient entropy — and cuts each label class
separately, keeping `⌊0.8·c⌋` of a class of `c` rows for training; when
every class count is divisible by 5 this is an exact 80/20 cut of the
whole table and both partitions keep exactly the source's per-label
proportions (stated both 5-scaled and as cross-multiplied ratios).  For
other sizes an exactly ratio-preserving split does not exist — see the
counterexample — so proportions are only approximate there. -/
theorem C4_stratified_split_amended (t : Table)
    (_hcols : firstMissingOf t = none)
    (hdiv : ∀ v ∈ labelsOf (examplesOf t), 5 ∣ countLabelIn (examplesOf t) v) :
    (∀ e₁ e₂ : ℕ, trainTestSplit (some 42) e₁ (examplesOf t) =
        trainTestSplit (some 42) e₂ (examplesOf t)) ∧
    5 * (splitCore 42 (examplesOf t)).1.length = 4 * (examplesOf t).length ∧
    5 * (splitCore 42 (examplesOf t)).2.length = (examplesOf t).length ∧
    ∀ v ∈ labelsOf (examplesOf t),
      5 * countLabelIn (splitCore 42 (examplesOf t)).1 v =
        4 * countLabelIn (examplesOf t) v ∧
      5 * countLabelIn (splitCore 42 (examplesOf t)).2 v =
        countLabelIn (examplesOf t) v ∧
      countLabelIn (splitCore 42 (examplesOf t)).1 v * (examplesOf t).length =
        countLabelIn (examplesOf t) v * (splitCore 42 (examplesOf t)).1.length ∧
      countLabelIn (splitCore 42 (examplesOf t)).2 v * (examplesOf t).length =
        countLabelIn (examplesOf t) v * (splitCore 42 (examplesOf t)).2.length := by
  have hsz := splitCore_stratified_sizes (examplesOf t) hdiv 42
  refine ⟨fun e₁ e₂ => rfl, hsz.1, hsz.2, ?_⟩
  intro v hv
  obtain ⟨k, hk⟩ := hdiv v hv
  have h1 := countLabelIn_splitCore_train 42 (examplesOf t) v hv
  have h2 := countLabelIn_splitCore_test 42 (examplesOf t) v hv
  have hctc : classTrainCount (countLabelIn (examplesOf t) v) = 4 * k := by
    unfold classTrainCount
    omega
  have ha : 5 * countLabelIn (splitCore 42 (examplesOf t)).1 v =
      4 * countLabelIn (examplesOf t) v := by
    rw [h1, hctc]
    omega
  have hb : 5 * countLabelIn (splitCore 42 (examplesOf t)).2 v =
      countLabelIn (examplesOf t) v := by
    rw [h2, hctc]
    omega
  refine ⟨ha, hb, ?_, ?_⟩
  · apply Nat.eq_of_mul_eq_mul_left (show 0 < 20 by norm_num)
    calc 20 * (countLabelIn (splitCore 42 (examplesOf t)).1 v * (examplesOf t).length)
        = (5 * countLabelIn (splitCore 42 (examplesOf t)).1 v) *
            (4 * (examplesOf t).length) := by ring
      _ = (4 * countLabelIn (examplesOf t) v) *
            (5 * (splitCore 42 (examplesOf t)).1.length) := by rw [ha, hsz.1]
      _ = 20 * (countLabelIn (examplesOf t) v * (splitCore 42 (examplesOf t)).1.length) := by
          ring
  · apply Nat.eq_of_mul_eq_mul_left (show 0 < 5 by norm_num)
    calc 5 * (countLabelIn (splitCore 42 (examplesOf t)).2 v * (examplesOf t).length)
        = (5 * countLabelIn (splitCore 42 (examplesOf t)).2 v) * (examplesOf t).length := by
          ring
      _ = countLabelIn (examplesOf t) v * (examplesOf t).length := by rw [hb]
      _ = countLabelIn (examplesOf t) v * (5 * (splitCore 42 (examplesOf t)).2.length) := by
          rw [hsz.2]
      _ = 5 * (countLabelIn (examplesOf t) v * (splitCore 42 (examplesOf t)).2.length) := by
          ring

theorem C4_witness :
    (∀ e₁ e₂ : ℕ, trainTestSplit (some 42) e₁ (examplesOf tblW) =
        trainTestSplit (some 42) e₂ (examplesOf tblW)) ∧
    5 * (splitCore 42 (examplesOf tblW)).1.length = 4 * (examplesOf tblW).length ∧
    5 * (splitCore 42 (examplesOf tblW)).2.length = (examplesOf tblW).length ∧
    ∀ v ∈ labelsOf (examplesOf tblW),
      5 * countLabelIn (splitCore 42 (examplesOf tblW)).1 v =
        4 * countLabelIn (examplesOf tblW) v ∧
      5 * countLabelIn (splitCore 42 (examplesOf tblW)).2 v =
        countLabelIn (examplesOf tblW) v ∧
      countLabelIn (splitCore 42 (examplesOf tblW)).1 v * (examplesOf tblW).length =
        countLabelIn (examplesOf tblW) v * (splitCore 42 (examplesOf tblW)).1.length ∧
      countLabelIn (splitCore 42 (examplesOf tblW)).2 v * (examplesOf tblW).length =
        countLabelIn (examplesOf tblW) v * (splitCore 42 (examplesOf tblW)).2.length :=
  C4_stratified_split_amended tblW (by decide) (by decide)

theorem C4_counterexample :
    countLabelIn (trainTestSplit (some 42) 0 (examplesOf tbl5)).2 1 *
        (examplesOf tbl5).length ≠
      countLabelIn (examplesOf tbl5) 1 *
        (trainTestSplit (some 42) 0 (examplesOf tbl5)).2.length := by
  decide

end TrainRiskModel
